import Mathlib

/-!
Shallow embedding of the pivot-trading-system repository
(`src/modules/pivot_calculator.py`, `src/modules/signal_generator.py`,
`src/modules/position_manager.py`, `src/modules/auth_manager.py`,
`src/main.py`) together with theorems settling the frozen claims.

Python floats are modelled as exact rationals (`ℚ`); Python's `round`
builtin (round-half-to-even) is modelled exactly by `roundHalfEven`.
Wall-clock times of day are modelled as seconds since midnight (`ℤ`),
calendar dates as `(year, month, day)` triples of naturals.
-/

namespace PivotTrading

/-- Python's builtin `round(x)` to an integer: round half to even
(banker's rounding), as applied to exact rational values. -/
def roundHalfEven (q : ℚ) : ℤ :=
  let n : ℤ := ⌊q⌋
  let f : ℚ := q - n
  if f < 1/2 then n
  else if 1/2 < f then n + 1
  else if 2 ∣ n then n else n + 1

/-- Python's `round(x, 2)`: round to two decimal places, half to even. -/
def round2 (q : ℚ) : ℚ := (roundHalfEven (q * 100) : ℚ) / 100

/-- The nine pivot levels (`src/modules/pivot_calculator.py`, the dict
returned by `calculate_pivots`, keys PP, R1..R5, S1..S3). -/
structure Pivots where
  PP : ℚ
  R1 : ℚ
  R2 : ℚ
  R3 : ℚ
  R4 : ℚ
  R5 : ℚ
  S1 : ℚ
  S2 : ℚ
  S3 : ℚ
  deriving Repr, DecidableEq

/-- The pivot levels before the final 2-decimal rounding: the local
variables `pp, r1..r5, s1..s3` of `PivotCalculator.calculate_pivots`
(src/modules/pivot_calculator.py lines 18-30). -/
def calculate_pivots_raw (high low close : ℚ) : Pivots :=
  let pp := (high + low + close) / 3
  let r1 := 2 * pp - low
  let r2 := pp + (high - low)
  let r3 := high + 2 * (pp - low)
  let r4 := r3 + (r2 - r1)
  let r5 := r4 + (r3 - r2)
  let s1 := 2 * pp - high
  let s2 := pp - (high - low)
  let s3 := low - 2 * (high - pp)
  ⟨pp, r1, r2, r3, r4, r5, s1, s2, s3⟩

/-- `PivotCalculator.calculate_pivots` (src/modules/pivot_calculator.py
lines 13-42): each level rounded to 2 decimals. -/
def calculate_pivots (high low close : ℚ) : Pivots :=
  let p := calculate_pivots_raw high low close
  ⟨round2 p.PP, round2 p.R1, round2 p.R2, round2 p.R3, round2 p.R4,
   round2 p.R5, round2 p.S1, round2 p.S2, round2 p.S3⟩

/-- `PivotCalculator.get_atm_strike` (src/modules/pivot_calculator.py
lines 65-70): `round(spot_price / self.strike_interval) * self.strike_interval`,
with Python's round-half-to-even builtin. -/
def get_atm_strike (strike_interval : ℤ) (spot_price : ℚ) : ℤ :=
  roundHalfEven (spot_price / (strike_interval : ℚ)) * strike_interval

/-- A price candle: the dict `{open, high, low, close}` used throughout
`src/modules/signal_generator.py`.  The `open` key is spelled `open_`
because `open` is a Lean keyword. -/
structure Candle where
  open_ : ℚ
  high : ℚ
  low : ℚ
  close : ℚ
  deriving Repr, DecidableEq

/-- The configuration values the signal generator reads
(`config['trading']` and `config['market']` in
src/modules/signal_generator.py).  The `%H:%M` strings of the config are
modelled already parsed, as seconds since midnight. -/
structure Config where
  candle_size_percentile : ℚ
  max_candles_timeout : ℤ
  start_time : ℤ
  end_time : ℤ
  eod_exit_time : ℤ
  deriving Repr, DecidableEq

/-- `SignalGenerator.is_market_hours` (src/modules/signal_generator.py
lines 38-53): start_time <= current_time <= end_time.  `now` is the
current time of day in seconds since midnight. -/
def is_market_hours (cfg : Config) (now : ℤ) : Bool :=
  cfg.start_time ≤ now ∧ now ≤ cfg.end_time

/-- `SignalGenerator.is_first_candle_time` (src/modules/signal_generator.py
lines 55-66): time(9,15) <= current_time <= time(9,21). -/
def is_first_candle_time (now : ℤ) : Bool :=
  9 * 3600 + 15 * 60 ≤ now ∧ now ≤ 9 * 3600 + 21 * 60

/-- `SignalGenerator.calculate_candle_size_percent`
(src/modules/signal_generator.py lines 68-72). -/
def calculate_candle_size_percent (c : Candle) : ℚ :=
  if c.open_ = 0 then 0
  else |(c.close - c.open_) / c.open_| * 100

/-- `numpy.percentile(a, q)` with the default linear-interpolation
method: sort ascending, take `h = (n-1)·q/100`, and linearly interpolate
between the neighbouring order statistics. -/
def np_percentile (l : List ℚ) (q : ℚ) : ℚ :=
  let s := l.insertionSort (· ≤ ·)
  let n := s.length
  let h : ℚ := (n - 1 : ℤ) * q / 100
  let i : ℕ := (⌊h⌋).toNat
  let lo := s.getD i 0
  let hi := s.getD (i + 1) lo
  lo + (h - (⌊h⌋ : ℚ)) * (hi - lo)

/-- `SignalGenerator.is_significant_candle` (src/modules/signal_generator.py
lines 74-96): empty window gives `(False, 0, 0)`; otherwise the candle is
significant iff its size-percent is ≥ the configured percentile of the
window's size-percents. -/
def is_significant_candle (cfg : Config) (current_candle : Candle)
    (recent_candles : List Candle) : Bool × ℚ × ℚ :=
  if recent_candles = [] then (false, 0, 0)
  else
    let sizes := recent_candles.map calculate_candle_size_percent
    let threshold := np_percentile sizes cfg.candle_size_percentile
    let current_size := calculate_candle_size_percent current_candle
    (current_size ≥ threshold, threshold, current_size)

/-- `SignalGenerator.is_green_candle` (src/modules/signal_generator.py
lines 98-100). -/
def is_green_candle (c : Candle) : Bool :=
  c.close > c.open_

/-- The dict returned by a successful `check_scenario_*`
(src/modules/signal_generator.py): `{scenario, target, reason, has_timeout}`. -/
structure ScenarioResult where
  scenario : ℤ
  target : ℚ
  reason : String
  has_timeout : Bool
  deriving Repr, DecidableEq

/-- `SignalGenerator.check_scenario_1` (src/modules/signal_generator.py
lines 102-147).  The market-structure string is the `structure_`
argument (`structure` is a Lean keyword). -/
def check_scenario_1 (candle : Candle) (pivots : Pivots)
    (is_first_candle : Bool) (structure_ : String) : Option ScenarioResult :=
  if structure_ ≠ "BULLISH" then none
  else if is_first_candle then
    if pivots.PP ≥ candle.open_ ∧ candle.open_ ≥ pivots.S1 ∧ candle.close > pivots.R1 then
      some ⟨1, pivots.R3, "First candle: Opened PP-S1, closed above R1", true⟩
    else none
  else
    if candle.close > pivots.R1 then
      some ⟨1, pivots.R3, "Intraday: Closed above R1", false⟩
    else none

/-- `SignalGenerator.check_scenario_2` (src/modules/signal_generator.py
lines 149-195). -/
def check_scenario_2 (candle : Candle) (pivots : Pivots)
    (is_first_candle : Bool) (structure_ : String) : Option ScenarioResult :=
  if structure_ ≠ "BULLISH" then none
  else if is_first_candle then
    if pivots.PP ≤ candle.open_ ∧ candle.open_ ≤ pivots.R1 ∧
        pivots.R2 < candle.close ∧ candle.close < pivots.R3 then
      some ⟨2, pivots.R4, "First candle: Opened PP-R1, closed above R2 below R3", true⟩
    else none
  else
    if pivots.R2 < candle.close ∧ candle.close < pivots.R3 then
      some ⟨2, pivots.R4, "Intraday: Closed above R2 below R3", false⟩
    else none

/-- `SignalGenerator.check_scenario_3` (src/modules/signal_generator.py
lines 197-231). -/
def check_scenario_3 (candle : Candle) (pivots : Pivots)
    (is_first_candle : Bool) (structure_ : String) : Option ScenarioResult :=
  if structure_ ≠ "BULLISH" then none
  else if is_first_candle then none
  else
    if pivots.R2 ≤ candle.open_ ∧ candle.open_ ≤ pivots.R3 ∧ candle.close > pivots.R3 then
      some ⟨3, pivots.R5, "Intraday: Opened R2-R3, closed above R3", false⟩
    else none

/-- A trading `Signal` (src/modules/signal_generator.py lines 10-28),
restricted to the fields the embedded code reads.  `timestamp` is the
`datetime.now()` recorded at construction, modelled as an abstract tick. -/
structure Signal where
  signal_type : String
  scenario : ℤ
  symbol : String
  strike : ℤ
  option_type : String
  entry_price : ℚ
  stop_loss : ℚ
  target : ℚ
  pivots : Pivots
  structure_ : String
  is_first_candle : Bool
  candle_size : ℚ
  reason : String
  timestamp : ℤ
  deriving Repr, DecidableEq

/-- `SignalGenerator._create_entry_signal` (src/modules/signal_generator.py
lines 297-326): entry price is the candle close, stop loss the candle low. -/
def create_entry_signal (scenario_result : ScenarioResult) (candle : Candle)
    (pivots : Pivots) (structure_ : String) (symbol : String) (strike : ℤ)
    (option_type : String) (is_first_candle : Bool) (candle_size : ℚ)
    (now_timestamp : ℤ) : Signal :=
  { signal_type := "ENTRY"
    scenario := scenario_result.scenario
    symbol := symbol
    strike := strike
    option_type := option_type
    entry_price := candle.close
    stop_loss := candle.low
    target := scenario_result.target
    pivots := pivots
    structure_ := structure_
    is_first_candle := is_first_candle
    candle_size := candle_size
    reason := scenario_result.reason
    timestamp := now_timestamp }

/-- `SignalGenerator.generate_entry_signal` (src/modules/signal_generator.py
lines 233-295): market-hours, BULLISH, green and significant preconditions,
then the three scenarios in order, first match wins.  `now` is the time of
day `datetime.now()` would report, `now_timestamp` the tick stored in the
emitted signal. -/
def generate_entry_signal (cfg : Config) (now : ℤ) (candle : Candle)
    (recent_candles : List Candle) (pivots : Pivots) (structure_ : String)
    (symbol : String) (strike : ℤ) (option_type : String)
    (now_timestamp : ℤ) : Option Signal :=
  if ¬ is_market_hours cfg now then none
  else if structure_ ≠ "BULLISH" then none
  else if ¬ is_green_candle candle then none
  else
    let sig := is_significant_candle cfg candle recent_candles
    if ¬ sig.1 then none
    else
      let current_size := sig.2.2
      let is_first := is_first_candle_time now
      match check_scenario_1 candle pivots is_first structure_ with
      | some r => some (create_entry_signal r candle pivots structure_ symbol
          strike option_type is_first current_size now_timestamp)
      | none =>
        match check_scenario_2 candle pivots is_first structure_ with
        | some r => some (create_entry_signal r candle pivots structure_ symbol
            strike option_type is_first current_size now_timestamp)
        | none =>
          match check_scenario_3 candle pivots is_first structure_ with
          | some r => some (create_entry_signal r candle pivots structure_ symbol
              strike option_type is_first current_size now_timestamp)
          | none => none

/-- An open trading position (dataclass `Position`,
src/modules/position_manager.py lines 10-31). -/
structure Position where
  trade_id : String
  symbol : String
  strike : ℤ
  option_type : String
  entry_time : ℤ
  entry_price : ℚ
  entry_candle_low : ℚ
  scenario : ℤ
  structure_ : String
  is_first_candle : Bool
  target : ℚ
  stop_loss : ℚ
  lot_size : ℤ
  pivots : Pivots
  candles_held : ℤ
  deriving Repr, DecidableEq

/-- The result of a closed trade (dataclass `TradeResult`,
src/modules/position_manager.py lines 54-81). -/
structure TradeResult where
  trade_id : String
  symbol : String
  strike : ℤ
  option_type : String
  entry_time : ℤ
  entry_price : ℚ
  exit_time : ℤ
  exit_price : ℚ
  exit_reason : String
  scenario : ℤ
  structure_ : String
  is_first_candle : Bool
  re_entry : Bool
  target : ℚ
  stop_loss : ℚ
  candles_held : ℤ
  lot_size : ℤ
  pnl_points : ℚ
  pnl_rupees : ℚ
  pivots : Pivots
  deriving Repr, DecidableEq

/-- The mutable fields of `PositionManager`
(src/modules/position_manager.py lines 116-124): the single position slot,
the stop-loss counter, the config-derived limits, the trade counter and
the date used in trade ids. -/
structure PMState where
  position : Option Position
  stop_loss_count : ℤ
  max_re_entries : ℤ
  lot_size : ℤ
  trade_counter : ℤ
  today_date : String
  deriving Repr, DecidableEq

/-- `PositionManager.has_position` (src/modules/position_manager.py
lines 126-128). -/
def has_position (s : PMState) : Bool :=
  s.position.isSome

/-- `PositionManager.can_re_enter` (src/modules/position_manager.py
lines 130-132): `stop_loss_count <= max_re_entries`. -/
def can_re_enter (s : PMState) : Bool :=
  s.stop_loss_count ≤ s.max_re_entries

/-- Python `f"{n:03d}"` for the non-negative counters the code produces. -/
def format03 (n : ℤ) : String :=
  let s := n.toNat.repr
  if s.length < 3 then String.mk (List.replicate (3 - s.length) '0') ++ s else s

/-- `PositionManager.generate_trade_id` (src/modules/position_manager.py
lines 134-137): increments `trade_counter` and returns
`f"{self.today_date}_{self.trade_counter:03d}"`.  Mutation-style: returns
the updated state together with the produced id. -/
def generate_trade_id (s : PMState) : PMState × String :=
  let s1 := { s with trade_counter := s.trade_counter + 1 }
  (s1, s1.today_date ++ "_" ++ format03 s1.trade_counter)

/-- `PositionManager.open_position` (src/modules/position_manager.py
lines 139-172).  A Python `raise` is modelled as `Except.error` carrying
the exception message; the returned state reflects exactly the mutations
performed before the raise (here: none). The `is_re_entry` parameter is
accepted and ignored, as in the source. -/
def open_position (signal : Signal) (_is_re_entry : Bool) (s : PMState) :
    PMState × Except String Position :=
  if has_position s then
    (s, Except.error "Cannot open position: Position already exists")
  else
    let (s1, trade_id) := generate_trade_id s
    let pos : Position :=
      { trade_id := trade_id
        symbol := signal.symbol
        strike := signal.strike
        option_type := signal.option_type
        entry_time := signal.timestamp
        entry_price := signal.entry_price
        entry_candle_low := signal.stop_loss
        scenario := signal.scenario
        structure_ := signal.structure_
        is_first_candle := signal.is_first_candle
        target := signal.target
        stop_loss := signal.stop_loss
        lot_size := s1.lot_size
        pivots := signal.pivots
        candles_held := 0 }
    ({ s1 with position := some pos }, Except.ok pos)

/-- `PositionManager.update_position` (src/modules/position_manager.py
lines 174-177): sets `candles_held` when a position is open, otherwise
does nothing. -/
def update_position (candle_count : ℤ) (s : PMState) : PMState :=
  if let some pos := s.position then
    { s with position := some { pos with candles_held := candle_count } }
  else s

/-- `PositionManager.close_position` (src/modules/position_manager.py
lines 179-231): error when no position is open; otherwise computes the
P&L, increments `stop_loss_count` exactly when `exit_reason == 'STOP_LOSS'`,
clears the slot and returns the `TradeResult`.  `exit_time` stands for the
`datetime.now()` call. -/
def close_position (exit_price : ℚ) (exit_reason : String)
    (is_re_entry : Bool) (exit_time : ℤ) (s : PMState) :
    PMState × Except String TradeResult :=
  match s.position with
  | none => (s, Except.error "Cannot close position: No position exists")
  | some pos =>
    let pnl_points := exit_price - pos.entry_price
    let pnl_rupees := pnl_points * (pos.lot_size : ℚ)
    let s1 := if exit_reason = "STOP_LOSS" then
        { s with stop_loss_count := s.stop_loss_count + 1 }
      else s
    let result : TradeResult :=
      { trade_id := pos.trade_id
        symbol := pos.symbol
        strike := pos.strike
        option_type := pos.option_type
        entry_time := pos.entry_time
        entry_price := pos.entry_price
        exit_time := exit_time
        exit_price := exit_price
        exit_reason := exit_reason
        scenario := pos.scenario
        structure_ := pos.structure_
        is_first_candle := pos.is_first_candle
        re_entry := is_re_entry
        target := pos.target
        stop_loss := pos.stop_loss
        candles_held := pos.candles_held
        lot_size := pos.lot_size
        pnl_points := round2 pnl_points
        pnl_rupees := round2 pnl_rupees
        pivots := pos.pivots }
    ({ s1 with position := none }, Except.ok result)

/-- `SignalGenerator.check_exit_conditions` (src/modules/signal_generator.py
lines 328-362): the four exit conditions in fixed order, first match wins.
`now` is the time of day of the `datetime.now()` call; the result models
the `(should_exit, reason, exit_price)` tuple, `none` standing for
`(False, None, None)`. -/
def check_exit_conditions (cfg : Config) (position : Position)
    (current_candle : Candle) (candle_count : ℤ) (now : ℤ) :
    Option (String × ℚ) :=
  let current_price := current_candle.close
  if current_price ≤ position.stop_loss then some ("STOP_LOSS", current_price)
  else if current_price ≥ position.target then some ("TARGET", current_price)
  else if position.is_first_candle ∧ candle_count ≥ cfg.max_candles_timeout then
    some ("10_CANDLE_TIMEOUT", current_price)
  else if now ≥ cfg.eod_exit_time then some ("EOD", current_price)
  else none

/-- The outcome of `PivotTradingSystem.analyze_candle` (src/main.py):
`None`, an entry `Signal`, or the `(True, exit_reason, exit_price)` tuple. -/
inductive AnalyzeResult where
  | noSignal : AnalyzeResult
  | entry (signal : Signal) : AnalyzeResult
  | exits (reason : String) (price : ℚ) : AnalyzeResult
  deriving Repr, DecidableEq

/-- `PivotTradingSystem.analyze_candle` (src/main.py lines 248-337),
with the data fetches passed in as values: no current candle, fewer than
10 recent candles, or missing pivots/structure all yield no verdict; with
no open position the entry path runs, otherwise the exit path. -/
def analyze_candle (cfg : Config) (pm : PMState) (now : ℤ)
    (candle_count : ℤ) (current_candle : Option Candle)
    (recent_candles : List Candle) (pivots : Option Pivots)
    (structure_ : Option String) (symbol : String) (strike : ℤ)
    (option_type : String) (now_timestamp : ℤ) : AnalyzeResult :=
  match current_candle with
  | none => .noSignal
  | some candle =>
    if recent_candles.length < 10 then .noSignal
    else
      match pivots, structure_ with
      | some p, some st =>
        match pm.position with
        | none =>
          match generate_entry_signal cfg now candle recent_candles p st
              symbol strike option_type now_timestamp with
          | some sig => .entry sig
          | none => .noSignal
        | some pos =>
          match check_exit_conditions cfg pos candle candle_count now with
          | some (reason, price) => .exits reason price
          | none => .noSignal
      | _, _ => .noSignal

/-- A calendar date `(year, month, day)`, the value of
`datetime.strptime(date_str, '%Y-%m-%d').date()`. -/
abbrev Date := ℕ × ℕ × ℕ

/-- The characters Python's default `str.strip()` removes. -/
def pyIsSpace (c : Char) : Bool :=
  c = ' ' ∨ c = '\t' ∨ c = '\n' ∨ c = '\r' ∨ c = '\x0b' ∨ c = '\x0c'

/-- Python `s.strip()`: drop leading and trailing whitespace. -/
def pyStrip (s : String) : String :=
  String.mk (((s.data.dropWhile pyIsSpace).reverse.dropWhile pyIsSpace).reverse)

/-- Split a character list at the first occurrence of `c`; `none` when
`c` does not occur. -/
def splitOnceChar (c : Char) : List Char → Option (List Char × List Char)
  | [] => none
  | x :: xs =>
    if x = c then some ([], xs)
    else
      match splitOnceChar c xs with
      | some (a, b) => some (x :: a, b)
      | none => none

/-- Python `token_data.split('|', 1)` guarded by `'|' in token_data`:
`none` when the string holds no `'|'`, otherwise the text before the
first `'|'` and everything after it. -/
def splitOnce (s : String) : Option (String × String) :=
  match splitOnceChar '|' s.data with
  | some (a, b) => some (String.mk a, String.mk b)
  | none => none

/-- Split a character list at every occurrence of `c` (Python
`s.split(c)`). -/
def splitAllChar (c : Char) : List Char → List (List Char)
  | [] => [[]]
  | x :: xs =>
    if x = c then [] :: splitAllChar c xs
    else
      match splitAllChar c xs with
      | [] => [[x]]
      | h :: t => (x :: h) :: t

/-- Parse a non-empty all-digit character list as a natural number. -/
def digitsToNat (l : List Char) : Option ℕ :=
  if l = [] ∨ ¬ l.all Char.isDigit then none
  else some (l.foldl (fun a c => a * 10 + (c.toNat - 48)) 0)

/-- `datetime.strptime(date_str, '%Y-%m-%d').date()`: parse a
`YYYY-MM-DD` string, `none` when parsing raises (the month/day
plausibility bounds stand in for strptime's field validation). -/
def parseDate (s : String) : Option Date :=
  match splitAllChar '-' s.data with
  | [y, m, d] =>
    match digitsToNat y, digitsToNat m, digitsToNat d with
    | some yn, some mn, some dn =>
      if 1 ≤ mn ∧ mn ≤ 12 ∧ 1 ≤ dn ∧ dn ≤ 31 then some (yn, mn, dn) else none
    | _, _, _ => none
  | _ => none

/-- `AuthManager.load_access_token` (src/modules/auth_manager.py
lines 41-79).  The token file is `none` when absent, otherwise its raw
text; `today` is `datetime.now().date()`.  Missing file, blank content,
or a date stamp different from today give `None`; a `token|date` record
dated today gives the token; old-format content without `'|'` is returned
as is ("assume valid for today").  A strptime failure propagates to the
`except` clause, which returns `None`. -/
def load_access_token (token_file : Option String) (today : Date) :
    Option String :=
  match token_file with
  | none => none
  | some raw =>
    let token_data := pyStrip raw
    if token_data = "" then none
    else
      match splitOnce token_data with
      | some (token, date_str) =>
        match parseDate date_str with
        | some token_date => if token_date = today then some token else none
        | none => none
      | none => some token_data

/-- A stored token record as the SPEC describes it, with an explicit
issue date, issue time of day (seconds) and embedded payload date stamp. -/
structure SpecTokenRecord where
  token : String
  issue_date : Date
  issue_time : ℤ
  embedded_date : Date
  deriving Repr, DecidableEq

/-- Modelled from the spec (spec.md §4.4 `is_token_acceptable`), for
comparison with `load_access_token`: accept only if a token exists, its
recorded issue date is today, its issue time of day is not before 06:00,
its age `now − issue_time` is at most 2 hours, and its embedded date
stamp agrees with today. -/
def spec_is_token_acceptable (record : Option SpecTokenRecord)
    (today : Date) (now : ℤ) : Bool :=
  match record with
  | none => false
  | some r =>
    r.issue_date = today ∧ 6 * 3600 ≤ r.issue_time ∧
      now - r.issue_time ≤ 2 * 3600 ∧ r.embedded_date = today

/-- The strict ordering invariant S3 < S2 < S1 < PP < R1 < R2 < R3 < R4 < R5
over a set of pivot levels. -/
def strict_pivot_chain (p : Pivots) : Prop :=
  p.S3 < p.S2 ∧ p.S2 < p.S1 ∧ p.S1 < p.PP ∧ p.PP < p.R1 ∧
    p.R1 < p.R2 ∧ p.R2 < p.R3 ∧ p.R3 < p.R4 ∧ p.R4 < p.R5

/-- The weak ordering S3 ≤ S2 ≤ S1 ≤ PP ≤ R1 ≤ R2 ≤ R3 ≤ R4 ≤ R5 over a
set of pivot levels. -/
def weak_pivot_chain (p : Pivots) : Prop :=
  p.S3 ≤ p.S2 ∧ p.S2 ≤ p.S1 ∧ p.S1 ≤ p.PP ∧ p.PP ≤ p.R1 ∧
    p.R1 ≤ p.R2 ∧ p.R2 ≤ p.R3 ∧ p.R3 ≤ p.R4 ∧ p.R4 ≤ p.R5

/-! ## Concrete fixtures (mirroring the `__main__` test blocks of the
source modules), used to instantiate the theorems at concrete inputs. -/

/-- The pivot dict of the test block of src/modules/position_manager.py,
completed with S2/S3 values below S1. -/
def samplePivots : Pivots :=
  { PP := 143.5, R1 := 146, R2 := 150, R3 := 155, R4 := 160, R5 := 165,
    S1 := 139, S2 := 135, S3 := 130 }

/-- The test signal of the `__main__` block of
src/modules/position_manager.py. -/
def sampleSignal : Signal :=
  { signal_type := "ENTRY", scenario := 1, symbol := "SENSEX2510280100CE",
    strike := 80100, option_type := "CE", entry_price := 145.5,
    stop_loss := 138.2, target := 175, pivots := samplePivots,
    structure_ := "BULLISH", is_first_candle := true, candle_size := 3,
    reason := "Test signal", timestamp := 0 }

/-- A freshly initialised `PositionManager` with
`max_re_entries = 1, lot_size = 10` (the config of the test block). -/
def sampleFreshState : PMState :=
  { position := none, stop_loss_count := 0, max_re_entries := 1,
    lot_size := 10, trade_counter := 0, today_date := "20261012" }

/-- A concrete open position. -/
def samplePosition : Position :=
  { trade_id := "20261012_001", symbol := "SENSEX2510280100CE",
    strike := 80100, option_type := "CE", entry_time := 0,
    entry_price := 145.5, entry_candle_low := 138.2, scenario := 1,
    structure_ := "BULLISH", is_first_candle := true, target := 175,
    stop_loss := 138.2, lot_size := 10, pivots := samplePivots,
    candles_held := 4 }

/-- A ledger state holding `samplePosition`. -/
def sampleOpenState : PMState :=
  { position := some samplePosition, stop_loss_count := 0,
    max_re_entries := 1, lot_size := 10, trade_counter := 1,
    today_date := "20261012" }

/-- A ledger state with no open position whose stop-loss counter has
exceeded the re-entry limit, so `can_re_enter` is false. -/
def sampleBlockedState : PMState :=
  { position := none, stop_loss_count := 5, max_re_entries := 1,
    lot_size := 10, trade_counter := 7, today_date := "20261012" }

/-- An intraday candle closing between R2 and R3 of `samplePivots`. -/
def overlapCandle : Candle :=
  { open_ := 151, high := 153, low := 150, close := 152 }

/-- A small reference candle (size-percent 0.5) for rolling windows. -/
def smallCandle : Candle := { open_ := 100, high := 101, low := 99, close := 100.5 }

/-- The config of the `__main__` test block of
src/modules/signal_generator.py: 75th percentile, 10-candle timeout,
market hours 09:15-15:30, EOD exit 15:15. -/
def testCfg : Config :=
  { candle_size_percentile := 75, max_candles_timeout := 10,
    start_time := 33300, end_time := 55800, eod_exit_time := 54900 }

/-! ## Helper lemmas about the rounding functions -/

theorem roundHalfEven_lower (q : ℚ) : (⌊q⌋ : ℤ) ≤ roundHalfEven q := by
  unfold roundHalfEven
  dsimp only
  split
  · exact le_refl _
  · split
    · exact le_of_lt (lt_add_one _)
    · split
      · exact le_refl _
      · exact le_of_lt (lt_add_one _)

theorem roundHalfEven_upper (q : ℚ) : roundHalfEven q ≤ ⌊q⌋ + 1 := by
  unfold roundHalfEven
  dsimp only
  split
  · exact le_of_lt (lt_add_one _)
  · split
    · exact le_refl _
    · split
      · exact le_of_lt (lt_add_one _)
      · exact le_refl _

theorem roundHalfEven_eq_floor {q : ℚ} (h : q - (⌊q⌋ : ℚ) < 1/2) :
    roundHalfEven q = ⌊q⌋ := by
  unfold roundHalfEven
  dsimp only
  rw [if_pos h]

theorem roundHalfEven_eq_ceil {q : ℚ} (h : 1/2 < q - (⌊q⌋ : ℚ)) :
    roundHalfEven q = ⌊q⌋ + 1 := by
  unfold roundHalfEven
  dsimp only
  rw [if_neg (by linarith), if_pos h]

theorem roundHalfEven_mono {q r : ℚ} (h : q ≤ r) :
    roundHalfEven q ≤ roundHalfEven r := by
  rcases lt_or_eq_of_le (Int.floor_le_floor h) with hf | hf
  · calc roundHalfEven q ≤ ⌊q⌋ + 1 := roundHalfEven_upper q
      _ ≤ ⌊r⌋ := by omega
      _ ≤ roundHalfEven r := roundHalfEven_lower r
  · have hfrac : q - (⌊q⌋ : ℚ) ≤ r - (⌊r⌋ : ℚ) := by
      rw [hf]
      have : ((⌊r⌋ : ℤ) : ℚ) ≤ (⌊r⌋ : ℚ) := le_refl _
      linarith
    rcases lt_trichotomy (q - (⌊q⌋ : ℚ)) (1/2) with h1 | h1 | h1
    · rw [roundHalfEven_eq_floor h1, hf]
      exact roundHalfEven_lower r
    · rcases lt_or_eq_of_le hfrac with h2 | h2
      · rw [h1] at h2
        rw [roundHalfEven_eq_ceil h2]
        have := roundHalfEven_upper q
        omega
      · have hcast : ((⌊q⌋ : ℤ) : ℚ) = ((⌊r⌋ : ℤ) : ℚ) := by exact_mod_cast hf
        have hq : q = r := by linarith
        rw [hq]
    · have h2 : (1:ℚ)/2 < r - (⌊r⌋ : ℚ) := by
        calc (1:ℚ)/2 < q - (⌊q⌋ : ℚ) := h1
          _ ≤ r - (⌊r⌋ : ℚ) := hfrac
      rw [roundHalfEven_eq_ceil h1, roundHalfEven_eq_ceil h2]
      omega

theorem round2_mono {q r : ℚ} (h : q ≤ r) : round2 q ≤ round2 r := by
  unfold round2
  have := roundHalfEven_mono (q := q * 100) (r := r * 100) (by linarith)
  have hc : ((roundHalfEven (q * 100) : ℤ) : ℚ) ≤ ((roundHalfEven (r * 100) : ℤ) : ℚ) := by
    exact_mod_cast this
  linarith

/-! ## C1: pivot-level ordering -/

/-- C1 (counterexample).  The claim "for every (high, low, close) with
high ≥ low the rounded levels satisfy the strict chain S3 < S2 < ... < R5"
is false: at (100, 100, 100) every level equals 100, so S3 < S2 fails;
at (100.01, 100, 100) the high is strictly above the low yet R1 and R2
round to the same value; and at (101, 100, 200), with a close above the
high, the rounded R2 is strictly below the rounded R1. -/
theorem C1_counterexample :
    ¬ strict_pivot_chain (calculate_pivots 100 100 100) ∧
    (calculate_pivots (10001/100) 100 100).R1 = (calculate_pivots (10001/100) 100 100).R2 ∧
    (calculate_pivots 101 100 200).R2 < (calculate_pivots 101 100 200).R1 := by
  refine ⟨fun hchain => ?_, ?_, ?_⟩
  · have h := hchain.1
    norm_num [calculate_pivots, calculate_pivots_raw, round2, roundHalfEven,
      strict_pivot_chain] at h
  · norm_num [calculate_pivots, calculate_pivots_raw, round2, roundHalfEven]
  · norm_num [calculate_pivots, calculate_pivots_raw, round2, roundHalfEven]

/-- C1 (amended).  For every (high, low, close) with low < high and
low ≤ close ≤ high, the pivot levels computed by `calculate_pivots`
satisfy the strict chain S3 < S2 < S1 < PP < R1 < R2 < R3 < R4 < R5
before the 2-decimal rounding, and the rounded levels returned by the
function satisfy the weak chain S3 ≤ S2 ≤ ... ≤ R5 (adjacent rounded
levels may coincide when a gap is below the rounding resolution). -/
theorem C1_pivot_ordering (high low close : ℚ)
    (h1 : low < high) (h2 : low ≤ close) (h3 : close ≤ high) :
    strict_pivot_chain (calculate_pivots_raw high low close) ∧
    weak_pivot_chain (calculate_pivots high low close) := by
  have hraw : strict_pivot_chain (calculate_pivots_raw high low close) := by
    simp only [strict_pivot_chain, calculate_pivots_raw]
    refine ⟨by linarith, by linarith, by linarith, by linarith,
      by linarith, by linarith, by linarith, by linarith⟩
  refine ⟨hraw, ?_⟩
  obtain ⟨g1, g2, g3, g4, g5, g6, g7, g8⟩ := hraw
  simp only [weak_pivot_chain, calculate_pivots]
  exact ⟨round2_mono (le_of_lt g1), round2_mono (le_of_lt g2),
    round2_mono (le_of_lt g3), round2_mono (le_of_lt g4),
    round2_mono (le_of_lt g5), round2_mono (le_of_lt g6),
    round2_mono (le_of_lt g7), round2_mono (le_of_lt g8)⟩

/-- Witness for C1 at the spec's own example (H, L, C) = (150.50, 138.20, 145.75). -/
theorem C1_pivot_ordering_witness :
    ((138.20 : ℚ) < 150.50 ∧ (138.20 : ℚ) ≤ 145.75 ∧ (145.75 : ℚ) ≤ 150.50) ∧
    (strict_pivot_chain (calculate_pivots_raw 150.50 138.20 145.75) ∧
      weak_pivot_chain (calculate_pivots 150.50 138.20 145.75)) :=
  ⟨⟨by norm_num, by norm_num, by norm_num⟩,
    C1_pivot_ordering 150.50 138.20 145.75 (by norm_num) (by norm_num) (by norm_num)⟩

/-! ## C6: ATM strike selection -/

/-- C6.  The claim (and the function's own docstring) says
`get_atm_strike(80150)` with interval 100 returns 80100; the code computes
`round(801.5) * 100`, and Python's round-half-to-even rounds 801.5 up to
the even integer 802, so the function returns 80200 instead. -/
theorem C6_atm_strike_eval :
    get_atm_strike 100 80150 = 80200 ∧ get_atm_strike 100 80150 ≠ 80100 := by
  constructor
  · norm_num [get_atm_strike, roundHalfEven]
  · norm_num [get_atm_strike, roundHalfEven]

/-! ## C2: opening while a position exists fails without mutation -/

/-- C2.  Calling `open_position` while a position already exists raises
("Cannot open position: Position already exists") and leaves the ledger
state completely unchanged: the returned state is the input state, so the
open position, the trade counter and the stop-loss counter all keep their
prior values, and the single `position` slot can never hold more than one
position. -/
theorem C2_open_position_fails_unchanged (s : PMState) (signal : Signal)
    (re : Bool) (h : has_position s = true) :
    open_position signal re s =
      (s, Except.error "Cannot open position: Position already exists") ∧
    (open_position signal re s).1.position = s.position ∧
    (open_position signal re s).1.trade_counter = s.trade_counter ∧
    (open_position signal re s).1.stop_loss_count = s.stop_loss_count := by
  have heq : open_position signal re s =
      (s, Except.error "Cannot open position: Position already exists") := by
    unfold open_position
    rw [if_pos h]
  exact ⟨heq, by rw [heq], by rw [heq], by rw [heq]⟩

/-- Witness for C2 at a concrete ledger holding an open position. -/
theorem C2_open_position_fails_unchanged_witness :
    has_position sampleOpenState = true ∧
    open_position sampleSignal false sampleOpenState =
      (sampleOpenState, Except.error "Cannot open position: Position already exists") :=
  ⟨rfl, (C2_open_position_fails_unchanged sampleOpenState sampleSignal false rfl).1⟩

/-! ## C9: open_position does not enforce the re-entry gate -/

/-- C9.  `open_position` itself never consults `can_re_enter`: whenever no
position is open it succeeds, bumping only the trade counter and filling
the position slot — in particular it succeeds on states where
`can_re_enter` is false.  (The re-entry limit is enforced solely by the
caller, src/main.py lines 370-386, which checks `can_re_enter()` before
calling `open_position`.) -/
theorem C9_open_position_ignores_gate (s : PMState) (signal : Signal)
    (re : Bool) (h : s.position = none) :
    ∃ pos : Position, open_position signal re s =
      ({ s with position := some pos, trade_counter := s.trade_counter + 1 },
        Except.ok pos) := by
  unfold open_position has_position
  rw [h]
  exact ⟨_, rfl⟩

/-- Witness for C9 at a concrete ledger whose stop-loss count exceeds the
re-entry limit (`can_re_enter` is false), where opening still succeeds. -/
theorem C9_open_position_ignores_gate_witness :
    sampleBlockedState.position = none ∧
    can_re_enter sampleBlockedState = false ∧
    ∃ pos : Position, open_position sampleSignal false sampleBlockedState =
      ({ sampleBlockedState with
          position := some pos
          trade_counter := sampleBlockedState.trade_counter + 1 },
        Except.ok pos) :=
  ⟨rfl, by decide,
    C9_open_position_ignores_gate sampleBlockedState sampleSignal false rfl⟩

/-! ## C10: update_position is total and frame-preserving -/

/-- C10.  `update_position` is a total function of the ledger state: when a
position is open it replaces exactly that position's `candles_held` with
the given count and changes nothing else (neither the other position
fields nor `stop_loss_count`, `trade_counter`, `today_date`); when no
position is open, the state is returned entirely unchanged. -/
theorem C10_update_position_frame (s : PMState) (n : ℤ) :
    (s.position = none → update_position n s = s) ∧
    (∀ pos : Position, s.position = some pos →
      update_position n s =
        { s with position := some { pos with candles_held := n } }) := by
  constructor
  · intro h
    unfold update_position
    rw [h]
  · intro pos h
    unfold update_position
    rw [h]

/-- Witness for C10: updating the candle count of a concrete open ledger. -/
theorem C10_update_position_frame_witness :
    sampleOpenState.position = some samplePosition ∧
    update_position 5 sampleOpenState =
      { sampleOpenState with
          position := some { samplePosition with candles_held := 5 } } :=
  ⟨rfl, (C10_update_position_frame sampleOpenState 5).2 samplePosition rfl⟩

/-! ## C7: stop-loss counting and the re-entry gate -/

/-- C7.  `close_position` increments the stop-loss counter exactly when the
exit reason is the string "STOP_LOSS"; `can_re_enter` is true iff
`stop_loss_count ≤ max_re_entries`; and on a fresh ledger with
`max_re_entries = 1`, after the initial trade and the single permitted
re-entry both close by stop loss, `can_re_enter` becomes false (while it
was still true after the first stop loss, permitting the re-entry), so a
third open attempt is refused by the caller's gate. -/
theorem C7_reentry_gate :
    (∀ s : PMState, can_re_enter s = true ↔ s.stop_loss_count ≤ s.max_re_entries) ∧
    (∀ (s : PMState) (pos : Position) (price : ℚ) (reason : String)
        (re : Bool) (t : ℤ), s.position = some pos →
      (close_position price reason re t s).1.stop_loss_count =
        (if reason = "STOP_LOSS" then s.stop_loss_count + 1
          else s.stop_loss_count)) ∧
    (let s1 := (open_position sampleSignal false sampleFreshState).1
     let s2 := (close_position 135 "STOP_LOSS" false 0 s1).1
     let s3 := (open_position sampleSignal true s2).1
     let s4 := (close_position 130 "STOP_LOSS" true 0 s3).1
     can_re_enter s2 = true ∧ can_re_enter s4 = false) := by
  refine ⟨?_, ?_, ?_⟩
  · intro s
    unfold can_re_enter
    exact decide_eq_true_iff
  · intro s pos price reason re t h
    unfold close_position
    rw [h]
    dsimp only
    split <;> simp
  · constructor <;> decide

/-- Witness for C7: the counter-increment rule applied to a concrete
stop-loss close and the gate read off a fresh ledger. -/
theorem C7_reentry_gate_witness :
    (can_re_enter sampleFreshState = true ↔
      sampleFreshState.stop_loss_count ≤ sampleFreshState.max_re_entries) ∧
    (sampleOpenState.position = some samplePosition ∧
      (close_position 135 "STOP_LOSS" false 0 sampleOpenState).1.stop_loss_count =
        (if "STOP_LOSS" = "STOP_LOSS" then sampleOpenState.stop_loss_count + 1
          else sampleOpenState.stop_loss_count)) :=
  ⟨C7_reentry_gate.1 sampleFreshState,
    rfl,
    C7_reentry_gate.2.1 sampleOpenState samplePosition 135 "STOP_LOSS" false 0 rfl⟩

/-! ## C3: exit-condition priority -/

/-- C3.  `check_exit_conditions` evaluates its four conditions in the fixed
order stop-loss, target, first-candle timeout, EOD, returning the first
that matches: price ≤ stop_loss always yields STOP_LOSS (in particular
when price simultaneously satisfies price ≥ target); failing that,
price ≥ target yields TARGET; failing those, a first-candle position held
for at least the configured timeout yields the timeout exit
("10_CANDLE_TIMEOUT"); failing those, a wall-clock time at or past the
EOD cutoff yields EOD; and otherwise no exit is signalled. -/
theorem C3_exit_priority (cfg : Config) (pos : Position) (candle : Candle)
    (count : ℤ) (now : ℤ) :
    (candle.close ≤ pos.stop_loss →
      check_exit_conditions cfg pos candle count now =
        some ("STOP_LOSS", candle.close)) ∧
    (¬ candle.close ≤ pos.stop_loss → candle.close ≥ pos.target →
      check_exit_conditions cfg pos candle count now =
        some ("TARGET", candle.close)) ∧
    (¬ candle.close ≤ pos.stop_loss → ¬ candle.close ≥ pos.target →
      pos.is_first_candle = true → count ≥ cfg.max_candles_timeout →
      check_exit_conditions cfg pos candle count now =
        some ("10_CANDLE_TIMEOUT", candle.close)) ∧
    (¬ candle.close ≤ pos.stop_loss → ¬ candle.close ≥ pos.target →
      ¬ (pos.is_first_candle = true ∧ count ≥ cfg.max_candles_timeout) →
      now ≥ cfg.eod_exit_time →
      check_exit_conditions cfg pos candle count now =
        some ("EOD", candle.close)) ∧
    (¬ candle.close ≤ pos.stop_loss → ¬ candle.close ≥ pos.target →
      ¬ (pos.is_first_candle = true ∧ count ≥ cfg.max_candles_timeout) →
      ¬ now ≥ cfg.eod_exit_time →
      check_exit_conditions cfg pos candle count now = none) := by
  unfold check_exit_conditions
  refine ⟨?_, ?_, ?_, ?_, ?_⟩
  · intro h1
    rw [if_pos h1]
  · intro h1 h2
    rw [if_neg h1, if_pos h2]
  · intro h1 h2 h3 h4
    rw [if_neg h1, if_neg h2, if_pos ⟨by rw [h3], h4⟩]
  · intro h1 h2 h3 h4
    rw [if_neg h1, if_neg h2, if_neg (by exact_mod_cast h3), if_pos h4]
  · intro h1 h2 h3 h4
    rw [if_neg h1, if_neg h2, if_neg (by exact_mod_cast h3), if_neg h4]

/-- Witness for C3: a candle whose close simultaneously satisfies the
stop-loss and target thresholds exits with STOP_LOSS. -/
theorem C3_exit_priority_witness :
    ((135 : ℚ) ≤ samplePosition.stop_loss ∧ (135 : ℚ) ≥ 120) ∧
    check_exit_conditions ⟨75, 10, 33300, 55800, 54900⟩
      { samplePosition with target := 120 }
      { open_ := 140, high := 141, low := 134, close := 135 } 3 36000 =
      some ("STOP_LOSS", 135) :=
  ⟨⟨by norm_num [samplePosition], by norm_num⟩,
    (C3_exit_priority ⟨75, 10, 33300, 55800, 54900⟩
      { samplePosition with target := 120 }
      { open_ := 140, high := 141, low := 134, close := 135 } 3 36000).1
      (by norm_num [samplePosition])⟩

/-! ## C4: entry-scenario precedence -/

/-- C4 (counterexample).  The claim that the three scenario matchers are
mutually exclusive is false: `samplePivots` satisfies the claimed ordering
S1 < PP < R1 < R2 < R3, the market structure is BULLISH and the candle is
an intraday candle (first-candle flag false) closing between R2 and R3,
yet both `check_scenario_1` (any intraday close above R1) and
`check_scenario_2` (intraday close in (R2, R3)) match it. -/
theorem C4_counterexample :
    (samplePivots.S1 < samplePivots.PP ∧ samplePivots.PP < samplePivots.R1 ∧
      samplePivots.R1 < samplePivots.R2 ∧ samplePivots.R2 < samplePivots.R3) ∧
    (check_scenario_1 overlapCandle samplePivots false "BULLISH").isSome = true ∧
    (check_scenario_2 overlapCandle samplePivots false "BULLISH").isSome = true := by
  refine ⟨⟨?_, ?_, ?_, ?_⟩, ?_, ?_⟩ <;>
    norm_num [samplePivots, check_scenario_1, check_scenario_2, overlapCandle]

/-- C4 (amended).  The three scenario matchers are not mutually exclusive
(scenario 2's intraday condition also satisfies scenario 1's), but
`generate_entry_signal` resolves every overlap by strict precedence: when
its preconditions hold (market hours, BULLISH structure, green and
significant candle) it returns the signal of `check_scenario_1` whenever
that matcher matches, of `check_scenario_2` only when matcher 1 does not
match, of `check_scenario_3` only when neither 1 nor 2 matches, and no
signal when none matches. -/
theorem C4_scenario_precedence (cfg : Config) (now : ℤ) (candle : Candle)
    (recent : List Candle) (pivots : Pivots) (symbol : String) (strike : ℤ)
    (option_type : String) (ts : ℤ)
    (hmkt : is_market_hours cfg now = true)
    (hgreen : is_green_candle candle = true)
    (hsig : (is_significant_candle cfg candle recent).1 = true) :
    (∀ r, check_scenario_1 candle pivots (is_first_candle_time now) "BULLISH" = some r →
      generate_entry_signal cfg now candle recent pivots "BULLISH" symbol strike option_type ts =
        some (create_entry_signal r candle pivots "BULLISH" symbol strike option_type
          (is_first_candle_time now) (is_significant_candle cfg candle recent).2.2 ts)) ∧
    (check_scenario_1 candle pivots (is_first_candle_time now) "BULLISH" = none →
      ∀ r, check_scenario_2 candle pivots (is_first_candle_time now) "BULLISH" = some r →
      generate_entry_signal cfg now candle recent pivots "BULLISH" symbol strike option_type ts =
        some (create_entry_signal r candle pivots "BULLISH" symbol strike option_type
          (is_first_candle_time now) (is_significant_candle cfg candle recent).2.2 ts)) ∧
    (check_scenario_1 candle pivots (is_first_candle_time now) "BULLISH" = none →
      check_scenario_2 candle pivots (is_first_candle_time now) "BULLISH" = none →
      ∀ r, check_scenario_3 candle pivots (is_first_candle_time now) "BULLISH" = some r →
      generate_entry_signal cfg now candle recent pivots "BULLISH" symbol strike option_type ts =
        some (create_entry_signal r candle pivots "BULLISH" symbol strike option_type
          (is_first_candle_time now) (is_significant_candle cfg candle recent).2.2 ts)) ∧
    (check_scenario_1 candle pivots (is_first_candle_time now) "BULLISH" = none →
      check_scenario_2 candle pivots (is_first_candle_time now) "BULLISH" = none →
      check_scenario_3 candle pivots (is_first_candle_time now) "BULLISH" = none →
      generate_entry_signal cfg now candle recent pivots "BULLISH" symbol strike option_type ts =
        none) := by
  refine ⟨?_, ?_, ?_, ?_⟩
  · intro r hr
    simp only [generate_entry_signal, hmkt, hgreen, hsig, hr, not_true_eq_false,
      if_false, ne_eq, not_false_iff, ite_true, ite_false, not_true]
  · intro h1 r hr
    simp only [generate_entry_signal, hmkt, hgreen, hsig, h1, hr, not_true_eq_false,
      if_false, ne_eq, not_false_iff, ite_true, ite_false, not_true]
  · intro h1 h2 r hr
    simp only [generate_entry_signal, hmkt, hgreen, hsig, h1, h2, hr, not_true_eq_false,
      if_false, ne_eq, not_false_iff, ite_true, ite_false, not_true]
  · intro h1 h2 h3
    simp only [generate_entry_signal, hmkt, hgreen, hsig, h1, h2, h3, not_true_eq_false,
      if_false, ne_eq, not_false_iff, ite_true, ite_false, not_true]

/-- Witness for C4: at 10:00 (intraday), with `samplePivots` and an
overlap candle matching both scenario 1 and scenario 2,
`generate_entry_signal` emits the scenario-1 signal. -/
theorem C4_scenario_precedence_witness :
    is_market_hours testCfg 36000 = true ∧
    is_green_candle overlapCandle = true ∧
    (is_significant_candle testCfg overlapCandle
      [smallCandle, smallCandle, smallCandle]).1 = true ∧
    generate_entry_signal testCfg 36000 overlapCandle
      [smallCandle, smallCandle, smallCandle] samplePivots "BULLISH"
      "SENSEX2510280100CE" 80100 "CE" 0 =
      some (create_entry_signal ⟨1, samplePivots.R3, "Intraday: Closed above R1", false⟩
        overlapCandle samplePivots "BULLISH" "SENSEX2510280100CE" 80100 "CE"
        (is_first_candle_time 36000)
        (is_significant_candle testCfg overlapCandle
          [smallCandle, smallCandle, smallCandle]).2.2 0) :=
  ⟨by decide,
   by norm_num [is_green_candle, overlapCandle],
   by norm_num [is_significant_candle, np_percentile, calculate_candle_size_percent,
     List.insertionSort, List.orderedInsert, smallCandle, overlapCandle, testCfg,
     List.cons_ne_nil, abs_of_nonneg, abs_of_pos],
   (C4_scenario_precedence testCfg 36000 overlapCandle
      [smallCandle, smallCandle, smallCandle] samplePivots
      "SENSEX2510280100CE" 80100 "CE" 0
      (by decide)
      (by norm_num [is_green_candle, overlapCandle])
      (by norm_num [is_significant_candle, np_percentile, calculate_candle_size_percent,
        List.insertionSort, List.orderedInsert, smallCandle, overlapCandle, testCfg,
        List.cons_ne_nil, abs_of_nonneg, abs_of_pos])).1
      ⟨1, samplePivots.R3, "Intraday: Closed above R1", false⟩
      (by norm_num [check_scenario_1, is_first_candle_time, overlapCandle, samplePivots])⟩

/-! ## C8: candle significance and the 10-candle history minimum -/

/-- C8.  `analyze_candle` treats a rolling window of fewer than 10 candles
as insufficient history and produces no verdict of any kind; with at least
10 candles, `is_significant_candle` declares the candle significant
exactly when its size-percent is at least the configured percentile of the
window's size-percents (computed as numpy's linear-interpolation
percentile). -/
theorem C8_significance_history (cfg : Config) :
    (∀ (pm : PMState) (now count ts : ℤ) (current : Option Candle)
        (recent : List Candle) (pivots : Option Pivots) (st : Option String)
        (symbol : String) (strike : ℤ) (option_type : String),
      recent.length < 10 →
      analyze_candle cfg pm now count current recent pivots st symbol strike
        option_type ts = .noSignal) ∧
    (∀ (current : Candle) (recent : List Candle), 10 ≤ recent.length →
      ((is_significant_candle cfg current recent).1 = true ↔
        calculate_candle_size_percent current ≥
          np_percentile (recent.map calculate_candle_size_percent)
            cfg.candle_size_percentile)) := by
  constructor
  · intro pm now count ts current recent pivots st symbol strike option_type h
    unfold analyze_candle
    match current with
    | none => rfl
    | some candle =>
      dsimp only
      rw [if_pos h]
  · intro current recent h
    have hne : recent ≠ [] := by
      intro he
      rw [he] at h
      simp at h
    unfold is_significant_candle
    rw [if_neg hne]
    exact decide_eq_true_iff

/-- Witness for C8: an empty window yields no verdict, and a 10-candle
window yields the percentile comparison. -/
theorem C8_significance_history_witness :
    (([] : List Candle).length < 10 ∧
      analyze_candle testCfg sampleFreshState 36000 0 (some overlapCandle) []
        (some samplePivots) (some "BULLISH") "SENSEX2510280100CE" 80100
        "CE" 0 = .noSignal) ∧
    (10 ≤ (List.replicate 10 smallCandle).length ∧
      ((is_significant_candle testCfg overlapCandle
          (List.replicate 10 smallCandle)).1 = true ↔
        calculate_candle_size_percent overlapCandle ≥
          np_percentile ((List.replicate 10 smallCandle).map
            calculate_candle_size_percent) testCfg.candle_size_percentile)) :=
  ⟨⟨by decide,
    (C8_significance_history testCfg).1 sampleFreshState 36000 0 0
      (some overlapCandle) [] (some samplePivots) (some "BULLISH")
      "SENSEX2510280100CE" 80100 "CE" (by decide)⟩,
   ⟨by simp,
    (C8_significance_history testCfg).2 overlapCandle
      (List.replicate 10 smallCandle) (by simp)⟩⟩

/-! ## C5: token acceptance -/

/-- C5 (counterexample).  The claim says acceptance conjoins all the
spec's freshness checks, so a token issued at 05:59 today must be
rejected: `spec_is_token_acceptable` indeed rejects such a record, but
`load_access_token` — which never reads an issue time at all — accepts
the very same stored record (content "tok|2026-10-12" on 2026-10-12,
checked at 07:00) and returns the token. -/
theorem C5_counterexample :
    spec_is_token_acceptable
      (some { token := "tok", issue_date := (2026, 10, 12),
              issue_time := 5 * 3600 + 59 * 60,
              embedded_date := (2026, 10, 12) })
      (2026, 10, 12) (7 * 3600) = false ∧
    load_access_token (some "tok|2026-10-12") (2026, 10, 12) = some "tok" := by
  constructor
  · decide
  · decide

/-- C5 (amended).  `load_access_token` checks only that a token record
exists, is non-empty after stripping, and — when the content holds a
`'|'` — that the embedded date stamp parses and equals today; old-format
content without `'|'` is accepted unconditionally.  No 06:00
issue-time-of-day check and no 2-hour age check is performed: a record
dated today is accepted regardless of issue time or age, and a record
dated any other day is rejected. -/
theorem C5_token_acceptance (tok ds : String) (dd today : Date)
    (h1 : pyStrip (tok ++ "|" ++ ds) = tok ++ "|" ++ ds)
    (h2 : splitOnce (tok ++ "|" ++ ds) = some (tok, ds))
    (h3 : parseDate ds = some dd) :
    (load_access_token (some (tok ++ "|" ++ ds)) today =
      if dd = today then some tok else none) ∧
    (∀ s : String, pyStrip s = "" → load_access_token (some s) today = none) ∧
    (∀ s : String, pyStrip s ≠ "" → splitOnce (pyStrip s) = none →
      load_access_token (some s) today = some (pyStrip s)) ∧
    load_access_token none today = none := by
  refine ⟨?_, ?_, ?_, rfl⟩
  · have hne : tok ++ "|" ++ ds ≠ "" := by
      intro he
      rw [he] at h2
      exact Option.noConfusion h2
    unfold load_access_token
    dsimp only
    rw [h1, if_neg hne, h2]
    dsimp only
    rw [h3]
  · intro s hs
    unfold load_access_token
    dsimp only
    rw [hs, if_pos rfl]
  · intro s hs hsplit
    unfold load_access_token
    dsimp only
    rw [if_neg hs, hsplit]

/-- Witness for C5 at the concrete record "tok|2026-10-12" checked on
2026-10-12. -/
theorem C5_token_acceptance_witness :
    (pyStrip ("tok" ++ "|" ++ "2026-10-12") = "tok" ++ "|" ++ "2026-10-12" ∧
     splitOnce ("tok" ++ "|" ++ "2026-10-12") = some ("tok", "2026-10-12") ∧
     parseDate "2026-10-12" = some (2026, 10, 12)) ∧
    (load_access_token (some ("tok" ++ "|" ++ "2026-10-12")) (2026, 10, 12) =
      if ((2026, 10, 12) : Date) = (2026, 10, 12) then some "tok" else none) :=
  ⟨⟨by decide, by decide, by decide⟩,
   (C5_token_acceptance "tok" "2026-10-12" (2026, 10, 12) (2026, 10, 12)
     (by decide) (by decide) (by decide)).1⟩

end PivotTrading
